import Mathlib

/-!
Verification development for the multi-tenant SaaS data-isolation core:
tenant-context resolution, isolation-tier routing, tenant resource limits,
and the order-status lifecycle.  Definitions are shallow embeddings of the
Python handlers (`tenant_handler.py`, `order_handler.py`,
`product_handler.py`, `application/layers/tenant-context.py`,
`application/lambda-functions/order_service.py`).
-/

set_option maxHeartbeats 1000000

/-- Tenant context as typed in the source: `TenantContext(tenant_id: str,
tenant_tier: str, user_id: str = None)` (`tenant-context.py`).  The
`user_id` default is `None`, hence `Option`. -/
structure TenantContext where
  tenant_id : String
  tenant_tier : String
  user_id : Option String := none
deriving Repr, DecidableEq

/-- Resource limits per subscription tier, the value dictionaries of
`get_tier_limits` in `tenant_handler.py` (a value of `-1` means unlimited). -/
structure TierLimits where
  max_products : Int
  max_orders : Int
  max_users : Int
  max_api_calls_per_hour : Int
deriving Repr, DecidableEq

/-- Embedding of `get_tier_limits` (`tenant_handler.py`): a dictionary keyed
by `basic`, `premium`, `enterprise`, looked up with
`limits.get(tier, limits[basic-key])`, so any unknown tier falls back to the
basic limits. -/
def get_tier_limits (tier : String) : TierLimits :=
  if tier = "basic" then
    ⟨100, 1000, 10, 1000⟩
  else if tier = "premium" then
    ⟨1000, 10000, 50, 10000⟩
  else if tier = "enterprise" then
    ⟨-1, -1, -1, 100000⟩
  else
    ⟨100, 1000, 10, 1000⟩

/-- Embedding of `get_tier_features` (`tenant_handler.py`): the feature
dictionaries, as association lists because the enterprise dictionary has two
extra keys.  Unknown tiers fall back to the basic features via
`features.get(tier, features[basic-key])`. -/
def get_tier_features (tier : String) : List (String × Bool) :=
  if tier = "basic" then
    [("advanced_analytics", false), ("custom_branding", false),
     ("api_access", true), ("priority_support", false), ("data_export", false)]
  else if tier = "premium" then
    [("advanced_analytics", true), ("custom_branding", true),
     ("api_access", true), ("priority_support", true), ("data_export", true)]
  else if tier = "enterprise" then
    [("advanced_analytics", true), ("custom_branding", true),
     ("api_access", true), ("priority_support", true), ("data_export", true),
     ("dedicated_support", true), ("custom_integrations", true)]
  else
    [("advanced_analytics", false), ("custom_branding", false),
     ("api_access", true), ("priority_support", false), ("data_export", false)]

/-- Modelled from the spec: `check_tenant_limits` lives in the `tenant_utils`
Lambda layer, which is not under src/ (only its callers `create_product` and
`create_order` are).  Spec section 4.4: a limit value of -1 means unlimited,
always allow; otherwise allow iff `current_count < limit`. -/
def check_tenant_limits (limit : Int) (current_count : Nat) : Bool :=
  if limit = -1 then true else (current_count : Int) < limit

/-- Embedding of the `valid_transitions` dictionary inside
`is_valid_status_transition` (`order_handler.py`), with
`valid_transitions.get(current, [])` as the fallback for unknown statuses. -/
def valid_transitions (current : String) : List String :=
  if current = "pending" then ["confirmed", "cancelled"]
  else if current = "confirmed" then ["shipped", "cancelled"]
  else if current = "shipped" then ["delivered", "cancelled"]
  else if current = "delivered" then []
  else if current = "cancelled" then []
  else []

/-- Embedding of `is_valid_status_transition` (`order_handler.py`):
`new in valid_transitions.get(current, [])`. -/
def is_valid_status_transition (current new : String) : Bool :=
  (valid_transitions current).contains new

example : is_valid_status_transition "pending" "confirmed" = true := by decide
example : is_valid_status_transition "delivered" "cancelled" = false := by decide
example : check_tenant_limits (-1) 1000000 = true := by decide
example : check_tenant_limits 5 5 = false := by decide

/-! ### Python string primitives

The handlers use `str.upper`, `in`, `str.replace` and `str.rstrip`; these are
modelled by structurally recursive functions on `List Char` so that every
proof can evaluate them with `decide`. -/

/-- ASCII upper-casing of one character, the effect of Python `str.upper` on
the ASCII strings the handlers deal with. -/
def asciiUpperChar (c : Char) : Char :=
  if 97 ≤ c.toNat ∧ c.toNat ≤ 122 then Char.ofNat (c.toNat - 32) else c

/-- Python `s.upper()` on ASCII strings. -/
def pyUpper (s : String) : String := ⟨s.data.map asciiUpperChar⟩

/-- Tests whether `p` is a prefix of the second list (Boolean). -/
def listStartsWith : List Char → List Char → Bool
  | [], _ => true
  | _ :: _, [] => false
  | p :: ps, c :: cs => p = c && listStartsWith ps cs

/-- Tests whether `sub` occurs as a contiguous substring. -/
def listContainsSub (sub : List Char) : List Char → Bool
  | [] => listStartsWith sub []
  | c :: cs => listStartsWith sub (c :: cs) || listContainsSub sub cs

/-- Python `sub in s` for a non-empty `sub`. -/
def pyContains (s sub : String) : Bool := listContainsSub sub.data s.data

/-- Replacement of every non-overlapping occurrence of `old` (non-empty) by
`new`, scanning left to right; the fuel argument is the length of the scanned
list, which bounds the recursion depth. -/
def listReplaceAux (old new : List Char) : Nat → List Char → List Char
  | 0, s => s
  | _, [] => []
  | Nat.succ n, c :: cs =>
    if listStartsWith old (c :: cs) then
      new ++ listReplaceAux old new n (List.drop (old.length - 1) cs)
    else
      c :: listReplaceAux old new n cs

/-- Python `s.replace(old, new)` for non-empty `old`. -/
def pyReplace (s old new : String) : String :=
  ⟨listReplaceAux old.data new.data s.data.length s.data⟩

/-- Python `s.rstrip(t)` for a one-character strip set `t`. -/
def pyRstrip (t : Char) (s : String) : String :=
  ⟨(s.data.reverse.dropWhile (fun c => c = t)).reverse⟩

/-! ### Isolation routing (`application/layers/tenant-context.py`) -/

/-- Read-only environment configuration consumed by
`get_database_connection_params`: `os.environ.get` may return `None`. -/
structure Env where
  pool_database : Option String
  bridge_database : Option String
deriving Repr, DecidableEq

/-- Connection-parameter dictionary returned by
`get_database_connection_params`. -/
structure ConnParams where
  database : Option String
  schema : String
  row_security_context : Option String
deriving Repr, DecidableEq

/-- Bridge-tier schema name as computed in `get_database_connection_params`
and `provision_bridge_tenant`: the Python expression is the literal
`tenant_` followed by `tenant_id.replace(hyphen, underscore)`. -/
def bridge_schema_name (tenant_id : String) : String :=
  "tenant_" ++ pyReplace tenant_id "-" "_"

/-- Embedding of `get_database_connection_params`
(`application/layers/tenant-context.py`): branches on the tier string and
raises `ValueError` (modelled as `Except.error`) on an unknown tier. -/
def get_database_connection_params (env : Env) (ctx : TenantContext) :
    Except String ConnParams :=
  if ctx.tenant_tier = "pool" then
    .ok ⟨env.pool_database, "public", some ctx.tenant_id⟩
  else if ctx.tenant_tier = "bridge" then
    .ok ⟨env.bridge_database, bridge_schema_name ctx.tenant_id, none⟩
  else if ctx.tenant_tier = "silo" then
    .ok ⟨some ("tenant_" ++ ctx.tenant_id), "public", none⟩
  else
    .error ("Unknown tenant tier: " ++ ctx.tenant_tier)

/-- Embedding of `apply_tenant_filter`
(`application/layers/tenant-context.py`).  For the pool tier it checks
(case-insensitively) whether the query contains `WHERE` via
`if WHERE-literal in query.upper()`, but then performs a case-sensitive
`query.replace` with the upper-case literal; otherwise it strips trailing
semicolons and appends a `WHERE tenant_id = ...` clause.  Bridge and silo
queries are returned unchanged. -/
def apply_tenant_filter (query : String) (ctx : TenantContext) : String :=
  if ctx.tenant_tier = "pool" then
    if pyContains (pyUpper query) "WHERE" then
      pyReplace query "WHERE"
        ("WHERE tenant_id = \x27" ++ ctx.tenant_id ++ "\x27 AND")
    else
      pyRstrip ';' query ++ " WHERE tenant_id = \x27" ++ ctx.tenant_id ++ "\x27;"
  else
    query

example :
    apply_tenant_filter "SELECT * FROM orders WHERE status = 1"
      ⟨"t1", "pool", none⟩ =
    "SELECT * FROM orders WHERE tenant_id = \x27t1\x27 AND status = 1" := by
  decide

example :
    apply_tenant_filter "SELECT * FROM orders where status = 1"
      ⟨"t1", "pool", none⟩ =
    "SELECT * FROM orders where status = 1" := by
  decide

example :
    apply_tenant_filter "SELECT * FROM orders;" ⟨"t1", "pool", none⟩ =
    "SELECT * FROM orders WHERE tenant_id = \x27t1\x27;" := by
  decide

/-! ### Context resolution (`application/layers/tenant-context.py`) -/

/-- Claim set carried by the authorizer context or a decoded JWT payload:
`custom:tenant_id`, `custom:tenant_tier` and `sub`, each possibly absent
(dictionary `get` returns `None`). -/
structure Claims where
  tenant_id : Option String
  tenant_tier : Option String
  sub : Option String
deriving Repr, DecidableEq

/-- Request headers consulted by the resolver.  Python reads the exact
capitalisations `Authorization` / `authorization`, `X-Tenant-Id` /
`x-tenant-id` and `X-Tenant-Tier`, so each is a separate optional entry. -/
structure Headers where
  authorization_cap : Option String
  authorization_low : Option String
  x_tenant_id_cap : Option String
  x_tenant_id_low : Option String
  x_tenant_tier : Option String
deriving Repr, DecidableEq

/-- API Gateway event as consumed by `extract_tenant_context`:
`requestContext.authorizer.claims` (when the upstream authorizer attached
claims) and the headers dictionary. -/
structure ApiEvent where
  authorizer_claims : Option Claims
  headers : Headers
deriving Repr, DecidableEq

/-- Python `a or b` on two optional strings: `None` and the empty string are
falsy. -/
def pyOrStr (a b : Option String) : Option String :=
  match a with
  | some s => if s.data.isEmpty then b else some s
  | none => b

/-- Python truthiness of an optional string. -/
def pyTruthy (a : Option String) : Bool :=
  match a with
  | some s => !s.data.isEmpty
  | none => false

/-- Tenant context as actually constructed by the resolver: the Python
constructor is annotated `tenant_id: str`, but `claims.get` can supply
`None`, so the resolved value may lack a tenant id. -/
structure ResolvedContext where
  tenant_id : Option String
  tenant_tier : String
  user_id : Option String
deriving Repr, DecidableEq

/-- Failure modes of `extract_tenant_context`: the explicit
`ValueError(no tenant context found)`, or an exception propagated from
`jwt.decode`. -/
inductive ResolveError where
  | no_tenant_context
  | jwt_decode_failure
deriving Repr, DecidableEq

/-- Embedding of `extract_token_from_header`: picks
`headers.get(Authorization) or headers.get(authorization)` and strips a
`Bearer ` prefix (7 characters) when present. -/
def extract_token_from_header (e : ApiEvent) : Option String :=
  match pyOrStr e.headers.authorization_cap e.headers.authorization_low with
  | some h =>
    if listStartsWith "Bearer ".data h.data then some ⟨h.data.drop 7⟩ else none
  | none => none

/-- Embedding of `extract_from_jwt`: the external `jwt.decode` (signature
verification disabled) is a parameter returning the payload claims or `none`
when it raises; the tier claim defaults to `pool`. -/
def extract_from_jwt (decode : String → Option Claims) (token : String) :
    Except ResolveError ResolvedContext :=
  match decode token with
  | some d => .ok ⟨d.tenant_id, d.tenant_tier.getD "pool", d.sub⟩
  | none => .error .jwt_decode_failure

/-- Embedding of `extract_tenant_context`: authorizer claims first, then a
bearer token decoded via `extract_from_jwt`, then the explicit tenant
headers (tier defaulting to `pool`); raises `ValueError` when none applies. -/
def extract_tenant_context (decode : String → Option Claims) (e : ApiEvent) :
    Except ResolveError ResolvedContext :=
  match e.authorizer_claims with
  | some c => .ok ⟨c.tenant_id, c.tenant_tier.getD "pool", c.sub⟩
  | none =>
    match extract_token_from_header e with
    | some t => extract_from_jwt decode t
    | none =>
      let tid := pyOrStr e.headers.x_tenant_id_cap e.headers.x_tenant_id_low
      if pyTruthy tid then
        .ok ⟨tid, e.headers.x_tenant_tier.getD "pool", none⟩
      else
        .error .no_tenant_context

/-- Embedding of the `with_tenant_context` decorator: a `ValueError` from
the resolver becomes a 401 response, any other exception a 500, and
otherwise the wrapped handler (abstracted to its status code) runs with the
resolved context. -/
def with_tenant_context (decode : String → Option Claims)
    (handler : ResolvedContext → Nat) (e : ApiEvent) : Nat :=
  match extract_tenant_context decode e with
  | .ok ctx => handler ctx
  | .error .no_tenant_context => 401
  | .error .jwt_decode_failure => 500

example :
    extract_tenant_context (fun _ => none)
      ⟨none, ⟨none, none, none, none, none⟩⟩ =
    .error .no_tenant_context := rfl

example :
    extract_tenant_context (fun _ => none)
      ⟨some ⟨some "t1", none, some "u1"⟩, ⟨none, none, none, none, none⟩⟩ =
    .ok ⟨some "t1", "pool", some "u1"⟩ := rfl

example :
    extract_tenant_context (fun _ => none)
      ⟨none, ⟨none, none, some "t9", none, none⟩⟩ =
    .ok ⟨some "t9", "pool", none⟩ := rfl

/-! ### Order status updates (`order_handler.py`)

The DynamoDB orders table is modelled as an association list from order id
to status for the requesting tenant: in the pool model every key the handler
uses carries the tenant id of the request as partition key, so the table
restricted to that tenant is exactly such a list; `get_item` becomes a
lookup and `update_item` a pointwise status overwrite. -/

/-- Lookup of an order status by order id (`table.get_item`). -/
def lookup_status : List (String × String) → String → Option String
  | [], _ => none
  | (k, v) :: rest, oid => if k = oid then some v else lookup_status rest oid

/-- Pointwise status overwrite (`table.update_item` setting `#status`). -/
def set_status : List (String × String) → String → String → List (String × String)
  | [], _, _ => []
  | (k, v) :: rest, oid, new =>
    if k = oid then (k, new) :: set_status rest oid new
    else (k, v) :: set_status rest oid new

/-- The `valid_statuses` literal in `update_order` (`order_handler.py`). -/
def handler_valid_statuses : List String :=
  ["pending", "confirmed", "shipped", "delivered", "cancelled"]

/-- Read phase of `update_order`: the `get_item` call that fetches the
current status the transition is validated against. -/
def read_order_status (store : List (String × String)) (oid : String) :
    Option String :=
  lookup_status store oid

/-- Write phase of `update_order`: validates the transition against the
status obtained by the read phase and then issues `update_item` with no
condition expression, so the write does not inspect the stored status
again.  Returns the new store and whether the update was performed. -/
def write_order_status (store : List (String × String)) (oid : String)
    (read_status new : String) : List (String × String) × Bool :=
  if is_valid_status_transition read_status new then
    (set_status store oid new, true)
  else
    (store, false)

/-- Domain event assembled by `publish_order_event` (`order_handler.py`). -/
structure OrderEvent where
  tenant_id : String
  order_id : String
  event_type : String
  timestamp : String
deriving Repr, DecidableEq

/-- Embedding of `publish_order_event` (`order_handler.py`).  The function
returns early when `SNS_TOPIC_ARN` is unset, and wraps the `sns.publish`
call in a bare try/except that only logs, so it can never raise; the
external publish outcome is the `publish_ok` parameter and the produced
event (if any) is returned for inspection. -/
def publish_order_event (sns_topic_arn : Option String) (publish_ok : Bool)
    (tenant_id order_id event_type ts : String) : Option OrderEvent :=
  match sns_topic_arn with
  | none => none
  | some _ =>
    if publish_ok then some ⟨tenant_id, order_id, event_type, ts⟩ else none

/-- Embedding of `update_order` (`order_handler.py`): request validation,
read phase, transition validation, unconditional write, then the
best-effort event publication `publish_order_event(ctx, order_id,
ORDER_ + new_status.upper())`.  Result: final store, HTTP status code, and
the published event if any. -/
def update_order (sns_topic_arn : Option String) (publish_ok : Bool)
    (ts : String) (store : List (String × String)) (tenant_id : String)
    (order_id : Option String) (body_status : Option String) :
    List (String × String) × Nat × Option OrderEvent :=
  match order_id with
  | none => (store, 400, none)
  | some oid =>
    match body_status with
    | none => (store, 400, none)
    | some new =>
      if !handler_valid_statuses.contains new then (store, 400, none)
      else
        match read_order_status store oid with
        | none => (store, 404, none)
        | some cur =>
          match write_order_status store oid cur new with
          | (store2, true) =>
            (store2, 200,
             publish_order_event sns_topic_arn publish_ok tenant_id oid
               ("ORDER_" ++ pyUpper new) ts)
          | (_, false) => (store, 400, none)

example :
    update_order none true "T" [("o1", "pending")] "t1" (some "o1")
      (some "confirmed") =
    ([("o1", "confirmed")], 200, none) := rfl

example :
    update_order (some "arn") true "T" [("o1", "delivered")] "t1" (some "o1")
      (some "cancelled") =
    ([("o1", "delivered")], 400, none) := rfl

/-! ### Order status updates (`application/lambda-functions/order_service.py`)

The SQL orders table is modelled as a list of rows carrying order id,
tenant id and status; the `UPDATE ... WHERE order_id = ... [AND tenant_id =
...]` statement maps over the rows, and `RETURNING`/`fetchone` reports
whether any row matched. -/

/-- Row of the SQL `orders` table, restricted to the columns the status
update touches. -/
structure OrderRow where
  order_id : String
  tenant_id : String
  status : String
deriving Repr, DecidableEq

/-- The `valid_statuses` literal in `update_order_status`
(`order_service.py`): note `processing` in place of `confirmed`. -/
def service_valid_statuses : List String :=
  ["pending", "processing", "shipped", "delivered", "cancelled"]

/-- Row predicate of the update statement: `order_id` equality, plus
`tenant_id` equality exactly when the requesting tier is `pool`. -/
def row_matches (ctx : TenantContext) (oid : String) (r : OrderRow) : Bool :=
  r.order_id == oid &&
    (if ctx.tenant_tier = "pool" then r.tenant_id == ctx.tenant_id else true)

/-- Embedding of `update_order_status` (`order_service.py`): validates only
membership of the new status in `valid_statuses` and then updates every
matching row unconditionally — the current status is never read and no
transition rule is consulted.  404 when no row matched. -/
def update_order_status (rows : List OrderRow) (ctx : TenantContext)
    (oid : String) (body_status : Option String) : List OrderRow × Nat :=
  match body_status with
  | none => (rows, 400)
  | some new =>
    if !service_valid_statuses.contains new then (rows, 400)
    else
      let rows2 := rows.map fun r =>
        if row_matches ctx oid r then { r with status := new } else r
      if rows.any (row_matches ctx oid) then (rows2, 200) else (rows2, 404)

example :
    update_order_status [⟨"o1", "t1", "delivered"⟩] ⟨"t1", "pool", none⟩
      "o1" (some "cancelled") =
    ([⟨"o1", "t1", "cancelled"⟩], 200) := rfl

example :
    update_order_status [⟨"o1", "t2", "pending"⟩] ⟨"t1", "pool", none⟩
      "o1" (some "shipped") =
    ([⟨"o1", "t2", "pending"⟩], 404) := rfl

/-! ### Shared lemmas -/

/-- Cancellation of a common prefix of two string concatenations. -/
theorem string_append_cancel_left {a b c : String} (h : a ++ b = a ++ c) :
    b = c := by
  have hd := congrArg String.data h
  simp only [String.data_append] at hd
  exact String.ext (List.append_cancel_left hd)

/-- Transition table of the spec, as the explicit set of allowed
(current, next) pairs. -/
def transition_table : List (String × String) :=
  [("pending", "confirmed"), ("pending", "cancelled"),
   ("confirmed", "shipped"), ("confirmed", "cancelled"),
   ("shipped", "delivered"), ("shipped", "cancelled")]

/-- The validator of `order_handler.py` accepts exactly the pairs of the
transition table. -/
theorem is_valid_iff_mem_table (cur new : String) :
    is_valid_status_transition cur new = true ↔ (cur, new) ∈ transition_table := by
  unfold is_valid_status_transition valid_transitions transition_table
  split_ifs with h1 h2 h3 h4 h5 <;> simp_all [Prod.ext_iff]

/-- Every target status of an allowed transition is one of the five
recognised status literals of `update_order`. -/
theorem target_in_handler_statuses (cur new : String)
    (h : is_valid_status_transition cur new = true) :
    handler_valid_statuses.contains new = true := by
  rw [is_valid_iff_mem_table] at h
  simp only [transition_table, List.mem_cons, List.not_mem_nil, or_false,
    Prod.ext_iff] at h
  rcases h with ⟨-, h⟩ | ⟨-, h⟩ | ⟨-, h⟩ | ⟨-, h⟩ | ⟨-, h⟩ | ⟨-, h⟩ <;>
    subst h <;> simp [handler_valid_statuses]

/-- C1: cross-tenant isolation fails in `apply_tenant_filter`: the pool-tier
branch checks for a `WHERE` clause case-insensitively (`WHERE in
query.upper()`) but rewrites with a case-sensitive `query.replace(WHERE,
...)`, so a query spelled with a lower-case `where` is returned verbatim,
with no tenant-id equality predicate at all (second conjunct: the result
does not even mention the tenant_id column), while the same query spelled
with an upper-case `WHERE` receives the predicate (third conjunct). -/
theorem apply_tenant_filter_drops_predicate_on_lowercase_where :
    apply_tenant_filter "SELECT * FROM orders where status = 1"
        ⟨"tenant-a", "pool", none⟩ =
      "SELECT * FROM orders where status = 1" ∧
    pyContains
        (apply_tenant_filter "SELECT * FROM orders where status = 1"
          ⟨"tenant-a", "pool", none⟩) "tenant_id" = false ∧
    apply_tenant_filter "SELECT * FROM orders WHERE status = 1"
        ⟨"tenant-a", "pool", none⟩ =
      "SELECT * FROM orders WHERE tenant_id = \x27tenant-a\x27 AND status = 1" := by
  refine ⟨by decide, by decide, by decide⟩

/-- C2 counterexample: the claim fails on `update_order_status`
(`order_service.py`): the pair (delivered, cancelled) is not in the
transition table, yet the SQL handler applies it with a 200 response and
changes the stored status. -/
theorem update_order_status_ignores_transition_table :
    is_valid_status_transition "delivered" "cancelled" = false ∧
    update_order_status [⟨"o1", "t1", "delivered"⟩] ⟨"t1", "pool", none⟩ "o1"
        (some "cancelled") =
      ([⟨"o1", "t1", "cancelled"⟩], 200) := by
  exact ⟨by decide, rfl⟩

/-- C2 amended: the transition-validating handler (`update_order` in
`order_handler.py`) follows the table exactly: the validator accepts
precisely the pairs of the table, every pair in the table is applied with a
200 response and the resulting status equal to the requested one, and every
pair outside the table is rejected with a 400 response and an unchanged
store; the SQL handler (`update_order_status` in `order_service.py`)
instead applies any status of its `valid_statuses` list unconditionally,
whatever the current status. -/
theorem order_status_transition_characterization (cur new oid tid ts : String)
    (topic : Option String) (pok : Bool) :
    (is_valid_status_transition cur new = true ↔
      (cur, new) ∈ transition_table) ∧
    ((cur, new) ∈ transition_table →
      update_order topic pok ts [(oid, cur)] tid (some oid) (some new) =
        ([(oid, new)], 200,
         publish_order_event topic pok tid oid ("ORDER_" ++ pyUpper new) ts)) ∧
    ((cur, new) ∉ transition_table →
      update_order topic pok ts [(oid, cur)] tid (some oid) (some new) =
        ([(oid, cur)], 400, none)) ∧
    (∀ st, st ∈ service_valid_statuses →
      update_order_status [⟨oid, tid, cur⟩] ⟨tid, "pool", none⟩ oid (some st) =
        ([⟨oid, tid, st⟩], 200)) := by
  refine ⟨is_valid_iff_mem_table cur new, ?_, ?_, ?_⟩
  · intro hmem
    have hv : is_valid_status_transition cur new = true :=
      (is_valid_iff_mem_table cur new).mpr hmem
    have hs := target_in_handler_statuses cur new hv
    simp [update_order, hs, read_order_status, lookup_status,
      write_order_status, hv, set_status]
    simpa using hs
  · intro hmem
    have hv : is_valid_status_transition cur new = false := by
      rw [Bool.eq_false_iff]
      intro hx
      exact hmem ((is_valid_iff_mem_table cur new).mp hx)
    cases hc : handler_valid_statuses.contains new <;>
      simp [update_order, hc, read_order_status, lookup_status,
        write_order_status, hv]
  · intro st hst
    have hc : service_valid_statuses.contains st = true := by
      simpa using hst
    simp [update_order_status, hc, row_matches]
    exact hst

/-- C2 witness: the amended characterization instantiated at the pair
(shipped, delivered) of the table and the status `processing` for the SQL
handler. -/
theorem order_status_transition_characterization_instance :
    update_order none true "T" [("o7", "shipped")] "t1" (some "o7")
        (some "delivered") =
      ([("o7", "delivered")], 200, none) ∧
    update_order none true "T" [("o7", "delivered")] "t1" (some "o7")
        (some "confirmed") =
      ([("o7", "delivered")], 400, none) ∧
    update_order_status [⟨"o7", "t1", "delivered"⟩] ⟨"t1", "pool", none⟩ "o7"
        (some "processing") =
      ([⟨"o7", "t1", "processing"⟩], 200) := by
  obtain ⟨-, h2, h3, h4⟩ :=
    order_status_transition_characterization "shipped" "delivered" "o7" "t1"
      "T" none true
  obtain ⟨-, -, h3d, -⟩ :=
    order_status_transition_characterization "delivered" "confirmed" "o7" "t1"
      "T" none true
  refine ⟨?_, ?_, ?_⟩
  · have := h2 (by simp [transition_table])
    simpa [publish_order_event] using this
  · exact h3d (by simp [transition_table, Prod.ext_iff])
  · exact h4 "processing" (by simp [service_valid_statuses])

/-- C3 counterexample: two status-change requests both read `pending` for
order o1.  Request B writes `confirmed` and succeeds; when request A then
writes, the stored status (`confirmed`) no longer equals the status A read
(`pending`), yet the write of A (which carries no condition expression) also
succeeds instead of failing with `ConflictingTransition` — both requests
succeed. -/
theorem concurrent_order_updates_both_succeed :
    read_order_status [("o1", "pending")] "o1" = some "pending" ∧
    write_order_status [("o1", "pending")] "o1" "pending" "confirmed" =
      ([("o1", "confirmed")], true) ∧
    read_order_status [("o1", "confirmed")] "o1" ≠ some "pending" ∧
    write_order_status [("o1", "confirmed")] "o1" "pending" "confirmed" =
      ([("o1", "confirmed")], true) := by
  refine ⟨rfl, by decide, by decide, by decide⟩

/-- C3 amended: the write phase of `update_order` is unconditional — it
validates the transition only against the status obtained by its own read
and never re-inspects the stored status, so whenever two requests read the
same status and each requests an allowed transition, both writes succeed
(the second silently overwriting the first), and no `ConflictingTransition`
failure exists anywhere in the handler. -/
theorem order_update_write_is_unconditional (store : List (String × String))
    (oid cur new1 new2 : String)
    (h1 : is_valid_status_transition cur new1 = true)
    (h2 : is_valid_status_transition cur new2 = true) :
    (∀ read_status new, is_valid_status_transition read_status new = true →
      write_order_status store oid read_status new =
        (set_status store oid new, true)) ∧
    read_order_status [(oid, cur)] oid = some cur ∧
    write_order_status [(oid, cur)] oid cur new2 = ([(oid, new2)], true) ∧
    write_order_status [(oid, new2)] oid cur new1 = ([(oid, new1)], true) := by
  refine ⟨fun rs n hn => by simp [write_order_status, hn], ?_, ?_, ?_⟩
  · simp [read_order_status, lookup_status]
  · simp [write_order_status, h2, set_status]
  · simp [write_order_status, h1, set_status]

/-- C3 witness: the unconditional-write characterization at order o1,
current status `pending`, with both requests attempting allowed
transitions. -/
theorem order_update_write_is_unconditional_instance :
    write_order_status [("o1", "pending")] "o1" "pending" "confirmed" =
      ([("o1", "confirmed")], true) ∧
    write_order_status [("o1", "confirmed")] "o1" "pending" "cancelled" =
      ([("o1", "cancelled")], true) := by
  obtain ⟨-, -, h3, h4⟩ :=
    order_update_write_is_unconditional [("o1", "pending")] "o1" "pending"
      "cancelled" "confirmed" (by decide) (by decide)
  exact ⟨h3, h4⟩

/-- C4 counterexample: at limit -2 and count 0 the check denies creation,
yet `0 <= limit <= current_count` does not hold, so the claimed equivalence
`returns false iff 0 <= limit <= current_count` is false for limit values
below -1. -/
theorem check_tenant_limits_iff_fails_below_minus_one :
    ¬(check_tenant_limits (-2) 0 = false ↔
        ((0 : Int) ≤ -2 ∧ (-2 : Int) ≤ (0 : Nat))) := by
  decide

/-- C4 amended: for every limit value of at least -1 — and every limit the
tier tables of `get_tier_limits` produce is at least -1 — creation is
allowed iff the limit is -1 (unlimited) or the current count is below the
limit, and equivalently it is denied iff `0 <= limit <= current_count`. -/
theorem check_tenant_limits_characterization (limit : Int) (count : Nat)
    (h : -1 ≤ limit) :
    (∀ tier, -1 ≤ (get_tier_limits tier).max_products ∧
      -1 ≤ (get_tier_limits tier).max_orders ∧
      -1 ≤ (get_tier_limits tier).max_users ∧
      -1 ≤ (get_tier_limits tier).max_api_calls_per_hour) ∧
    (check_tenant_limits limit count = true ↔
      (limit = -1 ∨ (count : Int) < limit)) ∧
    (check_tenant_limits limit count = false ↔
      (0 ≤ limit ∧ limit ≤ (count : Int))) := by
  refine ⟨?_, ?_, ?_⟩
  · intro tier
    unfold get_tier_limits
    split_ifs <;> refine ⟨by norm_num, by norm_num, by norm_num, by norm_num⟩
  · by_cases hl : limit = -1
    · simp [check_tenant_limits, hl]
    · simp [check_tenant_limits, hl]
  · by_cases hl : limit = -1
    · simp [check_tenant_limits, hl]
    · simp [check_tenant_limits, hl]
      omega

/-- C4 witness: the characterization applied at limit 5 and count 7 — the
sixth creation past a limit of five is denied. -/
theorem check_tenant_limits_characterization_instance :
    check_tenant_limits 5 7 = false ∧
    check_tenant_limits (-1) 7 = true := by
  obtain ⟨-, -, h3⟩ := check_tenant_limits_characterization 5 7 (by norm_num)
  obtain ⟨-, h2, -⟩ := check_tenant_limits_characterization (-1) 7 (by norm_num)
  exact ⟨h3.mpr (by norm_num), h2.mpr (Or.inl rfl)⟩

/-- Python replace with a single-character pattern and replacement acts
characterwise. -/
theorem listReplaceAux_single (a b : Char) :
    ∀ (n : Nat) (l : List Char), l.length ≤ n →
      listReplaceAux [a] [b] n l = l.map (fun c => if c = a then b else c)
  | 0, [], _ => rfl
  | 0, _ :: _, h => absurd h (by simp)
  | Nat.succ _, [], _ => rfl
  | Nat.succ n, c :: cs, h => by
    have ih := listReplaceAux_single a b n cs (by simpa using h)
    by_cases hc : a = c
    · subst hc
      simp [listReplaceAux, listStartsWith, ih, List.drop_zero]
    · simp [listReplaceAux, listStartsWith, hc, ih, Ne.symm hc]

/-- Hyphen-to-underscore sanitisation is the characterwise map replacing
`-` by `_` and leaving every other character unchanged. -/
theorem pyReplace_hyphen (tid : String) :
    (pyReplace tid "-" "_").data =
      tid.data.map (fun c => if c = '-' then '_' else c) := by
  unfold pyReplace
  exact listReplaceAux_single '-' '_' tid.data.length tid.data le_rfl

/-- C5: for every tenant_id the bridge-tier connection parameters use the
schema `tenant_` ++ sanitised tenant_id, where sanitisation maps every `-`
to `_` and alters no other character (the characterwise map form). -/
theorem bridge_schema_name_characterization (env : Env) (tid : String) :
    get_database_connection_params env ⟨tid, "bridge", none⟩ =
      .ok ⟨env.bridge_database, bridge_schema_name tid, none⟩ ∧
    (bridge_schema_name tid).data =
      "tenant_".data ++ tid.data.map (fun c => if c = '-' then '_' else c) := by
  constructor
  · rfl
  · simp [bridge_schema_name, String.data_append, pyReplace_hyphen]

example : bridge_schema_name "t-42" = "tenant_t_42" := by decide

/-- C6 counterexample: a request whose attached authorizer claims lack the
tenant-id claim (and which carries no bearer token and no tenant headers)
does not fail with Unauthenticated: the resolver returns a context whose
tenant_id is missing. -/
theorem extract_tenant_context_returns_idless_context :
    extract_tenant_context (fun _ => none)
        ⟨some ⟨none, none, none⟩, ⟨none, none, none, none, none⟩⟩ =
      .ok ⟨none, "pool", none⟩ ∧
    (⟨none, "pool", none⟩ : ResolvedContext).tenant_id = none := ⟨rfl, rfl⟩

/-- C6 amended: resolution fails with the Unauthenticated `ValueError`
exactly when no authorizer claims are attached, no bearer token is present
and the tenant-id headers are absent or empty; that failure is surfaced by
the decorator as a 401 client error; but when authorizer claims are
attached without a tenant-id claim, a context lacking a tenant id is
returned instead of an error. -/
theorem extract_tenant_context_error_characterization
    (decode : String → Option Claims) (e : ApiEvent) :
    (extract_tenant_context decode e = .error .no_tenant_context ↔
      (e.authorizer_claims = none ∧ extract_token_from_header e = none ∧
        pyTruthy (pyOrStr e.headers.x_tenant_id_cap
          e.headers.x_tenant_id_low) = false)) ∧
    (∀ c, e.authorizer_claims = some c → c.tenant_id = none →
      extract_tenant_context decode e =
        .ok ⟨none, c.tenant_tier.getD "pool", c.sub⟩) ∧
    (∀ handler, extract_tenant_context decode e = .error .no_tenant_context →
      with_tenant_context decode handler e = 401) := by
  refine ⟨?_, ?_, ?_⟩
  · cases hac : e.authorizer_claims with
    | some c => simp [extract_tenant_context, hac]
    | none =>
      cases ht : extract_token_from_header e with
      | some t =>
        cases hd : decode t <;>
          simp [extract_tenant_context, hac, ht, extract_from_jwt, hd]
      | none =>
        cases hp : pyTruthy (pyOrStr e.headers.x_tenant_id_cap
            e.headers.x_tenant_id_low) <;>
          simp [extract_tenant_context, hac, ht, hp]
  · intro c hc hid
    simp [extract_tenant_context, hc, hid]
  · intro handler herr
    simp [with_tenant_context, herr]

/-- C6 witness: the characterization at a bare request with no credentials
at all — resolution errors and the decorator answers 401. -/
theorem extract_tenant_context_error_characterization_instance :
    extract_tenant_context (fun _ => none)
        ⟨none, ⟨none, none, none, none, none⟩⟩ =
      .error .no_tenant_context ∧
    with_tenant_context (fun _ => none) (fun _ => 200)
        ⟨none, ⟨none, none, none, none, none⟩⟩ = 401 := by
  obtain ⟨h1, -, h3⟩ :=
    extract_tenant_context_error_characterization (fun _ => none)
      ⟨none, ⟨none, none, none, none, none⟩⟩
  have he := h1.mpr ⟨rfl, rfl, rfl⟩
  exact ⟨he, h3 (fun _ => 200) he⟩

/-- C7: context resolution follows the stated precedence, first match wins:
attached authorizer claims determine the context (tier claim defaulting to
pool); otherwise a bearer token from the authorization headers is decoded
(without signature verification, `decode` being the external `jwt.decode`
with verification disabled) and determines it; otherwise the tenant-id
header determines it, the tier header defaulting to pool when absent. -/
theorem extract_tenant_context_precedence
    (decode : String → Option Claims) (e : ApiEvent) :
    (∀ c, e.authorizer_claims = some c →
      extract_tenant_context decode e =
        .ok ⟨c.tenant_id, c.tenant_tier.getD "pool", c.sub⟩) ∧
    (∀ t, e.authorizer_claims = none → extract_token_from_header e = some t →
      extract_tenant_context decode e = extract_from_jwt decode t) ∧
    (∀ t d, decode t = some d →
      extract_from_jwt decode t =
        .ok ⟨d.tenant_id, d.tenant_tier.getD "pool", d.sub⟩) ∧
    (∀ tid, e.authorizer_claims = none → extract_token_from_header e = none →
      pyOrStr e.headers.x_tenant_id_cap e.headers.x_tenant_id_low = some tid →
      tid.data ≠ [] →
      extract_tenant_context decode e =
        .ok ⟨some tid, e.headers.x_tenant_tier.getD "pool", none⟩) ∧
    (e.headers.x_tenant_tier = none →
      (e.headers.x_tenant_tier.getD "pool") = "pool") := by
  refine ⟨?_, ?_, ?_, ?_, ?_⟩
  · intro c hc
    simp [extract_tenant_context, hc]
  · intro t hac ht
    simp [extract_tenant_context, hac, ht]
  · intro t d hd
    simp [extract_from_jwt, hd]
  · intro tid hac ht htid hne
    simp [extract_tenant_context, hac, ht, htid, pyTruthy, hne]
  · intro hnone
    simp [hnone]

/-- C7 witness: the precedence theorem applied to a request carrying both
authorizer claims and tenant headers — the claims win — and to a request
carrying only the tenant-id header — the header is used with the pool
default tier. -/
theorem extract_tenant_context_precedence_instance :
    extract_tenant_context (fun _ => none)
        ⟨some ⟨some "tA", some "silo", some "u1"⟩,
         ⟨none, none, some "tB", none, some "bridge"⟩⟩ =
      .ok ⟨some "tA", "silo", some "u1"⟩ ∧
    extract_tenant_context (fun _ => none)
        ⟨none, ⟨none, none, some "tB", none, none⟩⟩ =
      .ok ⟨some "tB", "pool", none⟩ := by
  obtain ⟨h1, -, -, -, -⟩ :=
    extract_tenant_context_precedence (fun _ => none)
      ⟨some ⟨some "tA", some "silo", some "u1"⟩,
       ⟨none, none, some "tB", none, some "bridge"⟩⟩
  obtain ⟨-, -, -, h4, -⟩ :=
    extract_tenant_context_precedence (fun _ => none)
      ⟨none, ⟨none, none, some "tB", none, none⟩⟩
  exact ⟨h1 _ rfl, h4 "tB" rfl rfl rfl (by decide)⟩

/-- C8 counterexample: under the bridge tier two distinct tenant_ids that
differ only in hyphen versus underscore are routed to identical connection
parameters, because the schema sanitisation maps both to the same name. -/
theorem get_database_connection_params_bridge_collision :
    ("a-b" : String) ≠ "a_b" ∧
    get_database_connection_params ⟨some "pd", some "bd"⟩
        ⟨"a-b", "bridge", none⟩ =
      get_database_connection_params ⟨some "pd", some "bd"⟩
        ⟨"a_b", "bridge", none⟩ := ⟨by decide, rfl⟩

/-- C8 amended: the storage-target computation is a pure function (two runs
on the same context are definitionally identical), and distinct tenant_ids
yield distinct targets under the pool and silo tiers; under the bridge tier
the targets coincide exactly when the hyphen-sanitised tenant_ids coincide,
so ids differing only by hyphen versus underscore collide. -/
theorem get_database_connection_params_tenant_separation (env : Env)
    (t1 t2 : String) (hne : t1 ≠ t2) :
    (∀ ctx : TenantContext, get_database_connection_params env ctx =
      get_database_connection_params env ctx) ∧
    get_database_connection_params env ⟨t1, "pool", none⟩ ≠
      get_database_connection_params env ⟨t2, "pool", none⟩ ∧
    get_database_connection_params env ⟨t1, "silo", none⟩ ≠
      get_database_connection_params env ⟨t2, "silo", none⟩ ∧
    (get_database_connection_params env ⟨t1, "bridge", none⟩ =
        get_database_connection_params env ⟨t2, "bridge", none⟩ ↔
      pyReplace t1 "-" "_" = pyReplace t2 "-" "_") := by
  have hp1 : get_database_connection_params env ⟨t1, "pool", none⟩ =
      .ok ⟨env.pool_database, "public", some t1⟩ := rfl
  have hp2 : get_database_connection_params env ⟨t2, "pool", none⟩ =
      .ok ⟨env.pool_database, "public", some t2⟩ := rfl
  have hs1 : get_database_connection_params env ⟨t1, "silo", none⟩ =
      .ok ⟨some ("tenant_" ++ t1), "public", none⟩ := rfl
  have hs2 : get_database_connection_params env ⟨t2, "silo", none⟩ =
      .ok ⟨some ("tenant_" ++ t2), "public", none⟩ := rfl
  have hb1 : get_database_connection_params env ⟨t1, "bridge", none⟩ =
      .ok ⟨env.bridge_database, bridge_schema_name t1, none⟩ := rfl
  have hb2 : get_database_connection_params env ⟨t2, "bridge", none⟩ =
      .ok ⟨env.bridge_database, bridge_schema_name t2, none⟩ := rfl
  refine ⟨fun _ => rfl, ?_, ?_, ?_⟩
  · rw [hp1, hp2]
    intro h
    simp [ConnParams.mk.injEq] at h
    exact hne h
  · rw [hs1, hs2]
    intro h
    simp [ConnParams.mk.injEq] at h
    exact hne (string_append_cancel_left h)
  · rw [hb1, hb2]
    constructor
    · intro h
      simp [ConnParams.mk.injEq, bridge_schema_name] at h
      exact string_append_cancel_left h
    · intro h
      simp [bridge_schema_name, h]

/-- C8 witness: tenant separation at the concrete pair t1, t2. -/
theorem get_database_connection_params_tenant_separation_instance :
    get_database_connection_params ⟨none, none⟩ ⟨"t1", "pool", none⟩ ≠
      get_database_connection_params ⟨none, none⟩ ⟨"t2", "pool", none⟩ ∧
    get_database_connection_params ⟨none, none⟩ ⟨"t1", "silo", none⟩ ≠
      get_database_connection_params ⟨none, none⟩ ⟨"t2", "silo", none⟩ := by
  obtain ⟨-, h2, h3, -⟩ :=
    get_database_connection_params_tenant_separation ⟨none, none⟩ "t1" "t2"
      (by decide)
  exact ⟨h2, h3⟩

/-- C9: after a successful status update, `update_order` publishes the
domain event with tenant id, order id, event type `ORDER_` ++ upper-cased
new status, and timestamp; and when the publish fails (`publish_ok =
false`, the try/except in `publish_order_event` swallowing the exception)
the handler still answers 200 and the stored status remains the new one —
the update is not reverted. -/
theorem update_order_publishes_best_effort (arn ts tid oid cur new : String)
    (h : is_valid_status_transition cur new = true) :
    update_order (some arn) true ts [(oid, cur)] tid (some oid) (some new) =
      ([(oid, new)], 200, some ⟨tid, oid, "ORDER_" ++ pyUpper new, ts⟩) ∧
    update_order (some arn) false ts [(oid, cur)] tid (some oid) (some new) =
      ([(oid, new)], 200, none) := by
  have hs := target_in_handler_statuses cur new h
  constructor <;>
    · simp [update_order, hs, read_order_status, lookup_status,
        write_order_status, h, set_status, publish_order_event]
      simpa using hs

/-- C9 witness: confirming order o1 with a working notification channel
yields the ORDER_CONFIRMED event; with a failing channel the update still
succeeds with no event. -/
theorem update_order_publishes_best_effort_instance :
    update_order (some "arn") true "T" [("o1", "pending")] "t1" (some "o1")
        (some "confirmed") =
      ([("o1", "confirmed")], 200, some ⟨"t1", "o1", "ORDER_CONFIRMED", "T"⟩) ∧
    update_order (some "arn") false "T" [("o1", "pending")] "t1" (some "o1")
        (some "confirmed") =
      ([("o1", "confirmed")], 200, none) := by
  obtain ⟨h1, h2⟩ :=
    update_order_publishes_best_effort "arn" "T" "t1" "o1" "pending"
      "confirmed" (by decide)
  refine ⟨?_, h2⟩
  rw [h1]
  decide

/-- C10: every tier string other than the three recognised subscription
tiers — including the isolation-tier names and the empty string — silently
receives the basic limits and features; an unknown tier is never an
error. -/
theorem unknown_tier_falls_back_to_basic (tier : String)
    (h1 : tier ≠ "basic") (h2 : tier ≠ "premium") (h3 : tier ≠ "enterprise") :
    get_tier_limits tier = get_tier_limits "basic" ∧
    get_tier_features tier = get_tier_features "basic" := by
  constructor
  · unfold get_tier_limits
    rw [if_neg h1, if_neg h2, if_neg h3, if_pos rfl]
  · unfold get_tier_features
    rw [if_neg h1, if_neg h2, if_neg h3, if_pos rfl]

/-- C10 witness: the fallback at the isolation-tier names `pool` and
`silo`. -/
theorem unknown_tier_falls_back_to_basic_instance :
    get_tier_limits "pool" = get_tier_limits "basic" ∧
    get_tier_features "silo" = get_tier_features "basic" := by
  obtain ⟨hl, -⟩ :=
    unknown_tier_falls_back_to_basic "pool" (by decide) (by decide) (by decide)
  obtain ⟨-, hf⟩ :=
    unknown_tier_falls_back_to_basic "silo" (by decide) (by decide) (by decide)
  exact ⟨hl, hf⟩
